import Mathlib

/-!
Shallow embedding of `src/api/index.py` (yuzubb/server-bbs), a FastAPI
bulletin-board backend over a Supabase store.  The four logical tables are
modelled as lists; each Supabase call is modelled by list filtering /
appending, with Boolean failure flags standing for the exceptions a call
may raise.  External capabilities (the PIL image codec together with the
base64 decode step, and `random.choice`) are modelled as oracles carried
in the request environment.  Timestamps are integers counting milliseconds
of UTC time; the ISO-8601 strings the code stores compare chronologically,
so integer comparison is a faithful model of the store's `gte` filter and
`order by created_at`.
-/

namespace ServerBBS

/-- A row of the `posts` table. -/
structure Post where
  public_id : String
  name : String
  body : String
  client_ip : String
  created_at : Int
deriving DecidableEq, Repr

/-- A row of the `ip_to_id` table. -/
structure IpMapping where
  ip_address : String
  public_id : String
deriving DecidableEq, Repr

/-- A row of the `ban_list` table. -/
structure BanRecord where
  public_id : String
  reason : String
deriving DecidableEq, Repr

/-- A row of the `post_activity_log` table. -/
structure ActivityEntry where
  public_id : String
  posted_at : Int
deriving DecidableEq, Repr

/-- The state of the four tables the handler touches. -/
structure DBState where
  posts : List Post
  ip_to_id : List IpMapping
  ban_list : List BanRecord
  post_activity_log : List ActivityEntry
deriving DecidableEq, Repr

/-- The columns `GET /posts` selects (`client_ip` is not returned). -/
structure PostView where
  public_id : String
  name : String
  body : String
  created_at : Int
deriving DecidableEq, Repr

/-- Outcome of the image-processing externals (`base64.b64decode`,
`Image.open`, `thumbnail`, `save`, `b64encode`): a `ValueError` with a
message, some other exception, or the compressed base64 payload. -/
inductive ImgOutcome where
  | valueError (msg : String)
  | otherError
  | ok (compressed : String)
deriving DecidableEq

/-- Result of a request: the JSON success body of `create_post`, or an
`HTTPException`-style status and detail. -/
inductive Outcome where
  | ok (message : String) (public_id : String)
  | httpError (status : Nat) (detail : String)
deriving DecidableEq, Repr

/-- Request body of `POST /post` as received on the wire, before pydantic
validation.  The default `name = "匿名"` is applied (no validator on
`name`).  `body` is `none` when the key is absent from the request
JSON: pydantic v2 then applies the default `""` without running the
field validator (`validate_default` is off by default), so only a
supplied body value is validated. -/
structure RawPostData where
  name : String
  body : Option String
  image_base64 : Option String
deriving DecidableEq, Repr

/-- A validated `PostData` model: `body` is the cleaned body returned by
the `check_body_and_image` validator. -/
structure PostData where
  name : String
  body : String
  image_base64 : Option String
deriving DecidableEq, Repr

/-- Per-request environment: the wall clock, the `random.choice` oracle,
the image-codec oracle, and one flag per Supabase call telling whether
that call raises. -/
structure Env where
  now : Int
  randPick : Nat → Nat
  compressOracle : String → ImgOutcome
  ipLookupFails : Bool
  ipInsertFails : Bool
  banCheckFails : Bool
  rateQueryFails : Bool
  rateHasCount : Bool
  banInsertFails : Bool
  banNoticeFails : Bool
  postInsertFails : Bool
  logInsertFails : Bool
  botInsertFails : Bool

def RATE_LIMIT_COUNT : Nat := 5

def RATE_LIMIT_WINDOW_SECONDS : Int := 10

/-- Python `str.strip()`: drop leading and trailing whitespace.  Defined
over the character list so that it reduces in the kernel (Lean's
`String.trim` is well-founded recursion and does not). -/
def py_strip (s : String) : String :=
  String.mk (((s.toList.dropWhile Char.isWhitespace).reverse.dropWhile
    Char.isWhitespace).reverse)

/-- Python `s.split(',')[0]`: the part before the first comma (the whole
string when there is none). -/
def up_to_comma (s : String) : String :=
  String.mk (s.toList.takeWhile (fun c => c != ','))

/-- Whether the string holds a comma (`split(',', 1)` unpacking succeeds
exactly when it does). -/
def has_comma (s : String) : Bool :=
  s.toList.any (fun c => c == ',')

/-- `string.ascii_letters + string.digits`. -/
def id_characters : List Char :=
  "abcdefghijklmnopqrstuvwxyzABCDEFGHIJKLMNOPQRSTUVWXYZ0123456789".toList

/-- `generate_public_id(length=7)`: seven independent `random.choice`
draws from `id_characters`; the oracle value is reduced mod 62 so that
every draw denotes a valid index. -/
def generate_public_id (pick : Nat → Nat) : String :=
  String.mk ((List.range 7).map (fun i => id_characters.getD (pick i % 62) 'a'))

/-- `request.headers.get(key, default)`. -/
def header_get (headers : List (String × String)) (key default_ : String) : String :=
  match headers.find? (fun h => h.1 == key) with
  | some h => h.2
  | none => default_

/-- Lines 122–124: the `x-original-client-ip` header, else the first
entry of `x-forwarded-for`; when neither is present both `get` calls
return the default string `"unknown"`, which becomes the client ip. -/
def resolve_client_ip (headers : List (String × String)) : String :=
  let client_ip := py_strip (header_get headers "x-original-client-ip" "unknown")
  if client_ip == "unknown" then
    py_strip (up_to_comma (header_get headers "x-forwarded-for" "unknown"))
  else
    client_ip

/-- Follows the spec's words only (§6: "Identity source: resolved from a
forwarded-client-IP header chain, falling back to the direct connection
address"), for comparison with `resolve_client_ip` above. -/
def resolve_client_ip_spec (headers : List (String × String))
    (connection_address : String) : String :=
  match headers.find? (fun h => h.1 == "x-original-client-ip") with
  | some h => py_strip h.2
  | none =>
    match headers.find? (fun h => h.1 == "x-forwarded-for") with
    | some h => py_strip (up_to_comma h.2)
    | none => connection_address

/-- The `check_body_and_image` pydantic validator on `body`.
`image_data` is what `values.data.get('image_base64')` yields when the
validator runs. -/
def check_body_and_image (v : String) (image_data : Option String) :
    Except String String :=
  let clean_body := py_strip v
  if clean_body == "" && image_data == none then
    Except.error "本文または画像データのどちらか一方は必須です。"
  else if clean_body != "" && clean_body.length > 200 then
    Except.error "本文は200文字以下で入力してください。"
  else
    Except.ok clean_body

/-- Pydantic v2 validates fields in declaration order (`name`, `body`,
`image_base64`), and `values.data` holds only the already-validated
fields; so when the `body` validator runs, `image_base64` is absent and
`values.data.get('image_base64')` is `None`.  A request that omits
`body` altogether takes the default `""` with the validator skipped:
pydantic v2 does not validate defaulted absent fields. -/
def validate_post_data (raw : RawPostData) : Except String PostData :=
  match raw.body with
  | none => Except.ok ⟨raw.name, "", raw.image_base64⟩
  | some b =>
    match check_body_and_image b none with
    | Except.error e => Except.error e
    | Except.ok clean => Except.ok ⟨raw.name, clean, raw.image_base64⟩

def ban_reason : String := "連投制限（10秒間に5回以上）による自動BAN"

/-- The notification post `ban_user` appends to `posts`. -/
def ban_notice_post (env : Env) (public_id : String) : Post :=
  { public_id := "system"
    name := "システム"
    body := "ID: " ++ public_id ++ " を連投制限超過のためBANしました。"
    client_ip := "0.0.0.0"
    created_at := env.now }

/-- `ban_user` (lines 61–84): insert a ban row, then insert the
notification post; each insert has its own try/except, so a failure of
either is swallowed and the other still runs. -/
def ban_user (env : Env) (public_id : String) (db : DBState) : DBState :=
  let db1 :=
    if env.banInsertFails then db
    else { db with ban_list := db.ban_list ++ [⟨public_id, ban_reason⟩] }
  if env.banNoticeFails then db1
  else { db1 with posts := db1.posts ++ [ban_notice_post env public_id] }

/-- `compress_and_re_encode_base64` (lines 86–116).  `split(',', 1)`
raises `ValueError` exactly when the data URI has no comma; the
decode / open / compress externals are the oracle; on success the
payload is wrapped back into a jpeg data URI. -/
def compress_and_re_encode_base64 (oracle : String → ImgOutcome)
    (data_uri : String) : ImgOutcome :=
  if has_comma data_uri then
    match oracle data_uri with
    | ImgOutcome.ok compressed =>
      ImgOutcome.ok ("data:image/jpeg;base64," ++ compressed)
    | e => e
  else
    ImgOutcome.valueError "無効なBase64 Data URI形式です。"

/-- Lines 131–140: look up `ip_to_id` by ip with `limit(1)`; `""` encodes
the Python falsy outcomes (no row, or a row whose `public_id` is empty). -/
def lookup_public_id (maps : List IpMapping) (ip : String) : String :=
  match (maps.filter (fun r => r.ip_address == ip)).take 1 with
  | [] => ""
  | r :: _ => r.public_id

/-- Count of `post_activity_log` rows for `public_id` with
`posted_at >= now - window` (lines 177–184); the `count="exact"` result. -/
def rate_window_count (env : Env) (public_id : String) (db : DBState) : Nat :=
  (db.post_activity_log.filter (fun e =>
    e.public_id == public_id &&
      decide (env.now - RATE_LIMIT_WINDOW_SECONDS * 1000 ≤ e.posted_at))).length

/-- Lines 161–167: `ban_list` select with `eq(public_id)` and `limit(1)`,
then truthiness of `response.data`. -/
def ban_lookup_hit (public_id : String) (db : DBState) : Bool :=
  !((db.ban_list.filter (fun b => b.public_id == public_id)).take 1).isEmpty

/-- Lines 198–214.  On `ValueError` from the codec the handler re-raises
a 400 with the error's message.  The oversize branch constructs
`HTTPException(400)` inside the same `try`, but this block has no
`except HTTPException: raise` clause, so the bare `except Exception`
catches it and raises the generic 500 instead. -/
def image_stage (env : Env) (image_base64 : Option String)
    (clean_body : String) : Except (Nat × String) (String × Bool) :=
  let has_image := match image_base64 with
    | none => false
    | some s => s != ""
  if has_image then
    match compress_and_re_encode_base64 env.compressOracle
        (image_base64.getD "") with
    | ImgOutcome.valueError msg =>
      Except.error (400, "画像処理エラー: " ++ msg)
    | ImgOutcome.otherError =>
      Except.error (500, "画像処理中に予期せぬエラーが発生しました。")
    | ImgOutcome.ok data_uri =>
      if data_uri.length > 500000 then
        Except.error (500, "画像処理中に予期せぬエラーが発生しました。")
      else
        Except.ok (data_uri, true)
  else
    Except.ok (clean_body, false)

/-- `post.name.strip() or "匿名"`. -/
def display_name (name : String) : String :=
  if py_strip name == "" then "匿名" else py_strip name

/-- The bot post appended when the body is exactly `"test"`:
`created_at` is the request time plus `timedelta(milliseconds=10)`. -/
def bot_post (env : Env) : Post :=
  { public_id := "systems"
    name := "システム"
    body := "起動確認完了"
    client_ip := "0.0.0.0"
    created_at := env.now + 10 }

/-- The `new_post` row built at lines 219–225. -/
def user_post (env : Env) (post : PostData) (body_to_save client_ip public_id : String) :
    Post :=
  { public_id := public_id
    name := display_name post.name
    body := body_to_save
    client_ip := client_ip
    created_at := env.now }

/-- Lines 216–256: insert the post, insert the activity-log row, then,
when the clean body is exactly `"test"` and the post is not an image,
insert the bot post inside its own try/except (a failure there is
swallowed).  A failure of the post insert leaves the store unchanged; a
failure of the log insert happens after the post row landed. -/
def persist_stage (env : Env) (post : PostData) (clean_body body_to_save : String)
    (is_image_post : Bool) (client_ip public_id : String) (db : DBState) :
    Outcome × DBState :=
  let new_post : Post := user_post env post body_to_save client_ip public_id
  if env.postInsertFails then
    (Outcome.httpError 500 "サーバーで投稿処理中にエラーが発生しました。", db)
  else
    let db1 := { db with posts := db.posts ++ [new_post] }
    if env.logInsertFails then
      (Outcome.httpError 500 "サーバーで投稿処理中にエラーが発生しました。", db1)
    else
      let db2 := { db1 with
        post_activity_log := db1.post_activity_log ++ [⟨public_id, env.now⟩] }
      if clean_body == "test" && !is_image_post then
        if env.botInsertFails then
          (Outcome.ok "投稿が完了しました" public_id, db2)
        else
          (Outcome.ok "投稿が完了しました" public_id,
            { db2 with posts := db2.posts ++ [bot_post env] })
      else
        (Outcome.ok "投稿が完了しました" public_id, db2)

/-- Lines 160–256 after identity resolution: ban check, rate check with
ban-on-violation, image processing, persistence. -/
def post_with_id (env : Env) (post : PostData) (clean_body client_ip public_id : String)
    (db : DBState) : Outcome × DBState :=
  if env.banCheckFails then
    (Outcome.httpError 500 "BANチェック中にデータベースエラーが発生しました。", db)
  else if ban_lookup_hit public_id db then
    (Outcome.httpError 403 "このIDは連投制限超過によりBANされています。", db)
  else if env.rateQueryFails then
    (Outcome.httpError 500 "連投チェック中にデータベースエラーが発生しました。", db)
  else
    let post_count := if env.rateHasCount then rate_window_count env public_id db else 0
    if RATE_LIMIT_COUNT ≤ post_count then
      (Outcome.httpError 429 "連投制限（10秒間に5回以上）を超過したため、このIDはBANされました。",
        ban_user env public_id db)
    else
      match image_stage env post.image_base64 clean_body with
      | Except.error (status, detail) => (Outcome.httpError status detail, db)
      | Except.ok (body_to_save, is_image_post) =>
        persist_stage env post clean_body body_to_save is_image_post
          client_ip public_id db

/-- The public identifier `create_post` ends up using for a request:
the mapped one when the lookup is truthy, a fresh `generate_public_id`
otherwise. -/
def resolved_public_id (env : Env) (headers : List (String × String))
    (db : DBState) : String :=
  let looked := lookup_public_id db.ip_to_id (resolve_client_ip headers)
  if looked == "" then generate_public_id env.randPick else looked

/-- `create_post` (lines 119–256). -/
def create_post (env : Env) (post : PostData) (headers : List (String × String))
    (db : DBState) : Outcome × DBState :=
  let client_ip := resolve_client_ip headers
  let clean_body := py_strip post.body
  if env.ipLookupFails then
    (Outcome.httpError 500 "ID検索中にデータベースエラーが発生しました。", db)
  else
    let looked := lookup_public_id db.ip_to_id client_ip
    if looked == "" then
      if env.ipInsertFails then
        (Outcome.httpError 500 "ID割り当て中にエラーが発生しました。", db)
      else
        let new_public_id := generate_public_id env.randPick
        post_with_id env post clean_body client_ip new_public_id
          { db with ip_to_id := db.ip_to_id ++ [⟨client_ip, new_public_id⟩] }
    else
      post_with_id env post clean_body client_ip looked db

/-- The full `POST /post` pipeline: FastAPI runs pydantic validation
before the handler; a validation failure becomes a 422 Unprocessable
Entity response (FastAPI's `RequestValidationError` default) and the
handler body — hence every store call — never runs. -/
def handle_post_request (env : Env) (raw : RawPostData)
    (headers : List (String × String)) (db : DBState) : Outcome × DBState :=
  match validate_post_data raw with
  | Except.error msg => (Outcome.httpError 422 msg, db)
  | Except.ok post => create_post env post headers db

/-- `order("created_at", desc=True)`. -/
def posts_desc (l : List Post) : List Post :=
  List.insertionSort (fun a b => b.created_at ≤ a.created_at) l

def post_view (p : Post) : PostView :=
  ⟨p.public_id, p.name, p.body, p.created_at⟩

/-- `get_posts` (lines 258–286).  The endpoint function declares only the
`ip` query parameter; `public_id_param` models the spec's documented
`public_id` query parameter, which FastAPI ignores because the handler
does not declare it.  `ip` is filtered through Python truthiness
(`if ip:`), and an unknown ip returns `{posts: []}` before the main
query runs. -/
def get_posts (db : DBState) (ipLookupFails queryFails : Bool)
    (ip : Option String) (public_id_param : Option String) :
    Except (Nat × String) (List PostView) :=
  let main_query : Except (Nat × String) (List PostView) :=
    if queryFails then
      Except.error (500, "投稿の取得中にエラーが発生しました。")
    else
      Except.ok ((posts_desc db.posts).map post_view)
  let ip_truthy := match ip with
    | none => false
    | some s => s != ""
  if ip_truthy then
    if ipLookupFails then
      Except.error (500, "投稿の取得中にエラーが発生しました。")
    else
      match (db.ip_to_id.filter (fun r => r.ip_address == ip.getD "")).take 1 with
      | [] => Except.ok []
      | r :: _ =>
        if queryFails then
          Except.error (500, "投稿の取得中にエラーが発生しました。")
        else
          Except.ok ((posts_desc
            (db.posts.filter (fun p => p.public_id == r.public_id))).map post_view)
  else
    main_query

/-! Concrete fixtures used by witnesses and counterexamples. -/

/-- A request environment with every store call succeeding, the clock at
1 000 000 ms, the random oracle always drawing index 0, and an image
codec that fails with a non-`ValueError` exception (overridden where a
scenario needs a codec result). -/
def envBase : Env :=
  { now := 1000000
    randPick := fun _ => 0
    compressOracle := fun _ => ImgOutcome.otherError
    ipLookupFails := false
    ipInsertFails := false
    banCheckFails := false
    rateQueryFails := false
    rateHasCount := true
    banInsertFails := false
    banNoticeFails := false
    postInsertFails := false
    logInsertFails := false
    botInsertFails := false }

def ipA : String := "203.0.113.5"

def pidA : String := "abc1234"

def headersA : List (String × String) := [("x-original-client-ip", ipA)]

/-- Store holding only the mapping `ipA ↦ pidA`. -/
def dbMap : DBState :=
  { posts := []
    ip_to_id := [⟨ipA, pidA⟩]
    ban_list := []
    post_activity_log := [] }

/-- The empty store. -/
def dbEmpty : DBState := ⟨[], [], [], []⟩

/-- A plain text request. -/
def pdHello : PostData := ⟨"x", "hello", none⟩

/-- A request whose data URI has no comma, so the codec raises
`ValueError` at the `split(',', 1)` step. -/
def pdImgBad : PostData := ⟨"x", "hi", some "nocomma"⟩

/-- The store `dbMap` with `pidA` banned. -/
def dbBan : DBState := { dbMap with ban_list := [⟨pidA, "x"⟩] }

/-- Four activity entries for `pidA` inside the 10-second window ending
at `envBase.now = 1000000`. -/
def db4 : DBState :=
  { dbMap with post_activity_log :=
      [⟨pidA, 995000⟩, ⟨pidA, 996000⟩, ⟨pidA, 997000⟩, ⟨pidA, 998000⟩] }

/-- Five in-window activity entries for `pidA`. -/
def db5 : DBState :=
  { dbMap with post_activity_log :=
      [⟨pidA, 994000⟩, ⟨pidA, 995000⟩, ⟨pidA, 996000⟩, ⟨pidA, 997000⟩,
        ⟨pidA, 998000⟩] }

/-- Ten in-window activity entries for `pidA`. -/
def db10 : DBState :=
  { dbMap with post_activity_log :=
      (List.range 10).map (fun i => ⟨pidA, 991000 + 500 * (i : Int)⟩) }

/-- `envBase` with the count attribute missing from the rate query's
response. -/
def envNoCount : Env := { envBase with rateHasCount := false }

/-- `envBase` with both `ban_user` inserts failing (e.g. a duplicate ban
row and a failed notification insert). -/
def envBanFail : Env := { envBase with banInsertFails := true, banNoticeFails := true }

/-- `envBase` with the bot-reply insert failing. -/
def envBotFail : Env := { envBase with botInsertFails := true }

/-- A compressed payload one character over the 500000 bound once the
data-URI header is prepended. -/
def big_payload : String := String.mk (List.replicate 500001 'a')

/-- `envBase` with a codec that compresses any image to `big_payload`. -/
def envBig : Env := { envBase with compressOracle := fun _ => ImgOutcome.ok big_payload }

/-- A well-formed image request fed to `envBig`'s codec. -/
def pdImgBig : PostData := ⟨"x", "hi", some "data:image/png;base64,AAAA"⟩

/-- A request whose body is exactly the auto-reply trigger `"test"`. -/
def pdTest : PostData := ⟨"x", "test", none⟩

/-- An image request whose text body is `"test"`. -/
def pdImgTest : PostData := ⟨"x", "test", some "data:image/png;base64,AAAA"⟩

/-- `envBase` with a codec that compresses any image to the payload
`"AA"`. -/
def envOkImg : Env := { envBase with compressOracle := fun _ => ImgOutcome.ok "AA" }

/-- A body of 201 characters, one over the validation bound. -/
def longBody : String := String.mk (List.replicate 201 'b')

def pA : Post := ⟨"aaa", "n1", "b1", "ip1", 1⟩

def pB : Post := ⟨"bbb", "n2", "b2", "ip2", 2⟩

/-- Two posts by distinct identifiers, no ip mappings. -/
def dbTwo : DBState := { posts := [pA, pB], ip_to_id := [], ban_list := [], post_activity_log := [] }

/-- `dbTwo` plus a mapping from `ipA` to `pA`'s identifier. -/
def dbTwoMapped : DBState := { dbTwo with ip_to_id := [⟨ipA, "aaa"⟩] }

/-! Helper lemmas shared by several claims. -/

/-- `ban_user` never touches the `ip_to_id` table. -/
theorem ban_user_ip_to_id (env : Env) (pid : String) (db : DBState) :
    (ban_user env pid db).ip_to_id = db.ip_to_id := by
  unfold ban_user
  by_cases h1 : env.banInsertFails <;> by_cases h2 : env.banNoticeFails <;>
    simp [h1, h2]

/-- With both of its inserts succeeding, `ban_user` appends exactly one
ban record and one notification post. -/
theorem ban_user_success (env : Env) (pid : String) (db : DBState)
    (h1 : env.banInsertFails = false) (h2 : env.banNoticeFails = false) :
    ban_user env pid db =
      { db with
        ban_list := db.ban_list ++ [⟨pid, ban_reason⟩]
        posts := db.posts ++ [ban_notice_post env pid] } := by
  unfold ban_user
  simp [h1, h2]

/-- `persist_stage` never touches the `ip_to_id` table. -/
theorem persist_stage_ip_to_id (env : Env) (post : PostData)
    (clean_body body_to_save : String) (is_image_post : Bool)
    (client_ip public_id : String) (db : DBState) :
    (persist_stage env post clean_body body_to_save is_image_post
      client_ip public_id db).2.ip_to_id = db.ip_to_id := by
  unfold persist_stage
  by_cases h1 : env.postInsertFails <;> by_cases h2 : env.logInsertFails <;>
    by_cases h3 : (clean_body == "test" && !is_image_post) <;>
      by_cases h4 : env.botInsertFails <;> simp [h1, h2, h3, h4]

/-- `post_with_id` never touches the `ip_to_id` table. -/
theorem post_with_id_ip_to_id (env : Env) (post : PostData)
    (clean_body client_ip public_id : String) (db : DBState) :
    (post_with_id env post clean_body client_ip public_id db).2.ip_to_id =
      db.ip_to_id := by
  unfold post_with_id
  by_cases h1 : env.banCheckFails
  · simp [h1]
  · by_cases h2 : ban_lookup_hit public_id db
    · simp [h1, h2]
    · by_cases h3 : env.rateQueryFails
      · simp [h1, h2, h3]
      · by_cases h4 : RATE_LIMIT_COUNT ≤
            (if env.rateHasCount then rate_window_count env public_id db else 0)
        · simp [h1, h2, h3, h4, ban_user_ip_to_id]
        · rcases himg : image_stage env post.image_base64 clean_body with
            ⟨status, detail⟩ | ⟨body_to_save, is_image⟩
          · simp [h1, h2, h3, h4, himg]
          · simp [h1, h2, h3, h4, himg, persist_stage_ip_to_id]

/-- When the ip lookup finds a truthy mapping, `create_post` proceeds
with the mapped identifier on the unchanged store. -/
theorem create_post_found (env : Env) (post : PostData)
    (headers : List (String × String)) (db : DBState)
    (hlf : env.ipLookupFails = false)
    (h : lookup_public_id db.ip_to_id (resolve_client_ip headers) ≠ "") :
    create_post env post headers db =
      post_with_id env post (py_strip post.body) (resolve_client_ip headers)
        (lookup_public_id db.ip_to_id (resolve_client_ip headers)) db := by
  unfold create_post
  simp [hlf, h]

/-- When the ip lookup is falsy and the mapping insert succeeds,
`create_post` proceeds with a fresh identifier on the store extended by
the new mapping. -/
theorem create_post_fresh (env : Env) (post : PostData)
    (headers : List (String × String)) (db : DBState)
    (hlf : env.ipLookupFails = false) (hif : env.ipInsertFails = false)
    (h : lookup_public_id db.ip_to_id (resolve_client_ip headers) = "") :
    create_post env post headers db =
      post_with_id env post (py_strip post.body) (resolve_client_ip headers)
        (generate_public_id env.randPick)
        { db with ip_to_id := db.ip_to_id ++
            [⟨resolve_client_ip headers, generate_public_id env.randPick⟩] } := by
  unfold create_post
  simp [hlf, hif, h]

/-- A banned identifier short-circuits `post_with_id` to the 403 with the
store untouched. -/
theorem post_with_id_banned (env : Env) (post : PostData)
    (clean_body client_ip public_id : String) (db : DBState)
    (hbc : env.banCheckFails = false)
    (hban : ban_lookup_hit public_id db = true) :
    post_with_id env post clean_body client_ip public_id db =
      (Outcome.httpError 403 "このIDは連投制限超過によりBANされています。", db) := by
  unfold post_with_id
  simp [hbc, hban]

/-- A window count at or above the threshold short-circuits
`post_with_id` to the 429, with exactly the `ban_user` effects applied
(whatever the two swallowed-failure flags of `ban_user` are). -/
theorem post_with_id_rate_banned (env : Env) (post : PostData)
    (clean_body client_ip public_id : String) (db : DBState)
    (hbc : env.banCheckFails = false)
    (hban : ban_lookup_hit public_id db = false)
    (hrq : env.rateQueryFails = false)
    (hhc : env.rateHasCount = true)
    (hcount : RATE_LIMIT_COUNT ≤ rate_window_count env public_id db) :
    post_with_id env post clean_body client_ip public_id db =
      (Outcome.httpError 429
          "連投制限（10秒間に5回以上）を超過したため、このIDはBANされました。",
        ban_user env public_id db) := by
  unfold post_with_id
  simp [hbc, hban, hrq, hhc, hcount]

/-- A window count below the threshold lets `post_with_id` fall through
to image processing and persistence. -/
theorem post_with_id_admitted (env : Env) (post : PostData)
    (clean_body client_ip public_id body_to_save : String) (is_image : Bool)
    (db : DBState)
    (hbc : env.banCheckFails = false)
    (hban : ban_lookup_hit public_id db = false)
    (hrq : env.rateQueryFails = false)
    (hcount : (if env.rateHasCount then rate_window_count env public_id db else 0) <
      RATE_LIMIT_COUNT)
    (himg : image_stage env post.image_base64 clean_body =
      Except.ok (body_to_save, is_image)) :
    post_with_id env post clean_body client_ip public_id db =
      persist_stage env post clean_body body_to_save is_image
        client_ip public_id db := by
  unfold post_with_id
  simp [hbc, hban, hrq, Nat.not_le_of_lt hcount, himg]

/-- An image-processing error short-circuits `post_with_id` to the
corresponding HTTP error with the store untouched. -/
theorem post_with_id_image_error (env : Env) (post : PostData)
    (clean_body client_ip public_id : String) (status : Nat) (detail : String)
    (db : DBState)
    (hbc : env.banCheckFails = false)
    (hban : ban_lookup_hit public_id db = false)
    (hrq : env.rateQueryFails = false)
    (hcount : (if env.rateHasCount then rate_window_count env public_id db else 0) <
      RATE_LIMIT_COUNT)
    (himg : image_stage env post.image_base64 clean_body =
      Except.error (status, detail)) :
    post_with_id env post clean_body client_ip public_id db =
      (Outcome.httpError status detail, db) := by
  unfold post_with_id
  simp [hbc, hban, hrq, Nat.not_le_of_lt hcount, himg]

/-- Successful persistence without the bot branch: the post row and the
activity-log row are appended, and nothing else changes. -/
theorem persist_stage_ok_no_bot (env : Env) (post : PostData)
    (clean_body body_to_save : String) (is_image_post : Bool)
    (client_ip public_id : String) (db : DBState)
    (hpf : env.postInsertFails = false)
    (hlg : env.logInsertFails = false)
    (hnb : (clean_body == "test" && !is_image_post) = false) :
    persist_stage env post clean_body body_to_save is_image_post
        client_ip public_id db =
      (Outcome.ok "投稿が完了しました" public_id,
        { db with
          posts := db.posts ++ [user_post env post body_to_save client_ip public_id]
          post_activity_log := db.post_activity_log ++ [⟨public_id, env.now⟩] }) := by
  unfold persist_stage
  simp [hpf, hlg, hnb]

/-- Successful persistence of a `"test"` body with the bot insert
succeeding: the user's post, the log row and the bot post are appended. -/
theorem persist_stage_ok_bot (env : Env) (post : PostData)
    (clean_body body_to_save : String) (is_image_post : Bool)
    (client_ip public_id : String) (db : DBState)
    (hpf : env.postInsertFails = false)
    (hlg : env.logInsertFails = false)
    (hb : (clean_body == "test" && !is_image_post) = true)
    (hbot : env.botInsertFails = false) :
    persist_stage env post clean_body body_to_save is_image_post
        client_ip public_id db =
      (Outcome.ok "投稿が完了しました" public_id,
        { db with
          posts := db.posts ++
            [user_post env post body_to_save client_ip public_id, bot_post env]
          post_activity_log := db.post_activity_log ++ [⟨public_id, env.now⟩] }) := by
  unfold persist_stage
  simp [hpf, hlg, hb, hbot]

/-- Successful persistence of a `"test"` body when the bot insert fails:
the request still succeeds, with just the user's post and the log row. -/
theorem persist_stage_ok_bot_fail (env : Env) (post : PostData)
    (clean_body body_to_save : String) (is_image_post : Bool)
    (client_ip public_id : String) (db : DBState)
    (hpf : env.postInsertFails = false)
    (hlg : env.logInsertFails = false)
    (hb : (clean_body == "test" && !is_image_post) = true)
    (hbot : env.botInsertFails = true) :
    persist_stage env post clean_body body_to_save is_image_post
        client_ip public_id db =
      (Outcome.ok "投稿が完了しました" public_id,
        { db with
          posts := db.posts ++ [user_post env post body_to_save client_ip public_id]
          post_activity_log := db.post_activity_log ++ [⟨public_id, env.now⟩] }) := by
  unfold persist_stage
  simp [hpf, hlg, hb, hbot]

/-! Claim theorems. -/

/-- C2: a post request whose resolved identifier has a matching ban
record returns the 403 outcome, and because the ban check runs before
the rate check, image processing and persistence, the posts and
activity-log tables are left unchanged. -/
theorem C2_banned_identifier_rejected (env : Env) (post : PostData)
    (headers : List (String × String)) (db : DBState)
    (hlf : env.ipLookupFails = false) (hif : env.ipInsertFails = false)
    (hbc : env.banCheckFails = false)
    (hban : ban_lookup_hit (resolved_public_id env headers db) db = true) :
    (create_post env post headers db).1 =
        Outcome.httpError 403 "このIDは連投制限超過によりBANされています。" ∧
      (create_post env post headers db).2.posts = db.posts ∧
      (create_post env post headers db).2.post_activity_log =
        db.post_activity_log := by
  by_cases h : lookup_public_id db.ip_to_id (resolve_client_ip headers) = ""
  · have hr : resolved_public_id env headers db = generate_public_id env.randPick := by
      unfold resolved_public_id
      simp [h]
    rw [hr] at hban
    have hban2 : ban_lookup_hit (generate_public_id env.randPick)
        { db with ip_to_id := db.ip_to_id ++
            [⟨resolve_client_ip headers, generate_public_id env.randPick⟩] } =
        true := hban
    rw [create_post_fresh env post headers db hlf hif h,
      post_with_id_banned _ _ _ _ _ _ hbc hban2]
    exact ⟨rfl, rfl, rfl⟩
  · have hr : resolved_public_id env headers db =
        lookup_public_id db.ip_to_id (resolve_client_ip headers) := by
      unfold resolved_public_id
      simp [h]
    rw [hr] at hban
    rw [create_post_found env post headers db hlf h,
      post_with_id_banned _ _ _ _ _ _ hbc hban]
    exact ⟨rfl, rfl, rfl⟩

theorem C2_banned_identifier_rejected_witness :
    (create_post envBase pdHello headersA dbBan).1 =
        Outcome.httpError 403 "このIDは連投制限超過によりBANされています。" ∧
      (create_post envBase pdHello headersA dbBan).2.posts = dbBan.posts ∧
      (create_post envBase pdHello headersA dbBan).2.post_activity_log =
        dbBan.post_activity_log :=
  C2_banned_identifier_rejected envBase pdHello headersA dbBan rfl rfl rfl
    (by decide)

/-- C10: when the rate query's result carries no exact-count attribute
the handler's count defaults to 0, so the request is admitted exactly as
if the identifier had no recent posts — with no constraint at all on the
activity log — and no ban record is written. -/
theorem C10_missing_count_admits (env : Env) (post : PostData)
    (headers : List (String × String)) (db : DBState) (pid : String)
    (hlf : env.ipLookupFails = false)
    (hpid : lookup_public_id db.ip_to_id (resolve_client_ip headers) = pid)
    (hpne : pid ≠ "")
    (hbc : env.banCheckFails = false)
    (hban : ban_lookup_hit pid db = false)
    (hrq : env.rateQueryFails = false)
    (hhc : env.rateHasCount = false)
    (himg : post.image_base64 = none)
    (hpf : env.postInsertFails = false)
    (hlg : env.logInsertFails = false)
    (hnb : (py_strip post.body == "test") = false) :
    create_post env post headers db =
      (Outcome.ok "投稿が完了しました" pid,
        { db with
          posts := db.posts ++
            [user_post env post (py_strip post.body) (resolve_client_ip headers) pid]
          post_activity_log := db.post_activity_log ++ [⟨pid, env.now⟩] }) := by
  have hlk : lookup_public_id db.ip_to_id (resolve_client_ip headers) ≠ "" := by
    rw [hpid]; exact hpne
  rw [create_post_found env post headers db hlf hlk, hpid]
  have hcount : (if env.rateHasCount then rate_window_count env pid db else 0) <
      RATE_LIMIT_COUNT := by
    rw [hhc]
    simp [RATE_LIMIT_COUNT]
  have himgstage : image_stage env post.image_base64 (py_strip post.body) =
      Except.ok (py_strip post.body, false) := by
    rw [himg]; rfl
  rw [post_with_id_admitted env post _ _ pid _ false db hbc hban hrq hcount himgstage]
  rw [persist_stage_ok_no_bot env post _ _ false _ pid db hpf hlg (by simp [hnb])]

theorem C10_missing_count_admits_witness :
    create_post envNoCount pdHello headersA db10 =
      (Outcome.ok "投稿が完了しました" pidA,
        { db10 with
          posts := db10.posts ++
            [user_post envNoCount pdHello (py_strip pdHello.body)
              (resolve_client_ip headersA) pidA]
          post_activity_log := db10.post_activity_log ++ [⟨pidA, envNoCount.now⟩] }) :=
  C10_missing_count_admits envNoCount pdHello headersA db10 pidA rfl (by decide)
    (by decide) rfl (by decide) rfl rfl rfl rfl rfl (by decide)

/-- C9: non-critical side-effect failures are swallowed.  (1) On the
rate-violation path the two `ban_user` inserts — the ban record (whose
failure covers a duplicate row for an already-banned identifier) and the
notification post — may both fail, yet the request still completes with
its own 429 outcome.  (2) On the auto-reply path a failing bot-post
insert leaves the primary request successful. -/
theorem C9_noncritical_failures_swallowed :
    (∀ (env : Env) (post : PostData) (headers : List (String × String))
      (db : DBState) (pid : String),
      env.ipLookupFails = false →
      lookup_public_id db.ip_to_id (resolve_client_ip headers) = pid →
      pid ≠ "" →
      env.banCheckFails = false →
      ban_lookup_hit pid db = false →
      env.rateQueryFails = false →
      env.rateHasCount = true →
      RATE_LIMIT_COUNT ≤ rate_window_count env pid db →
      (create_post env post headers db).1 =
        Outcome.httpError 429
          "連投制限（10秒間に5回以上）を超過したため、このIDはBANされました。") ∧
    (∀ (env : Env) (post : PostData) (headers : List (String × String))
      (db : DBState) (pid : String),
      env.ipLookupFails = false →
      lookup_public_id db.ip_to_id (resolve_client_ip headers) = pid →
      pid ≠ "" →
      env.banCheckFails = false →
      ban_lookup_hit pid db = false →
      env.rateQueryFails = false →
      (if env.rateHasCount then rate_window_count env pid db else 0) <
        RATE_LIMIT_COUNT →
      post.image_base64 = none →
      env.postInsertFails = false →
      env.logInsertFails = false →
      py_strip post.body = "test" →
      env.botInsertFails = true →
      (create_post env post headers db).1 =
        Outcome.ok "投稿が完了しました" pid) := by
  constructor
  · intro env post headers db pid hlf hpid hpne hbc hban hrq hhc hcount
    have hlk : lookup_public_id db.ip_to_id (resolve_client_ip headers) ≠ "" := by
      rw [hpid]; exact hpne
    rw [create_post_found env post headers db hlf hlk, hpid,
      post_with_id_rate_banned env post _ _ pid db hbc hban hrq hhc hcount]
  · intro env post headers db pid hlf hpid hpne hbc hban hrq hcount himg hpf hlg
      hbody hbot
    have hlk : lookup_public_id db.ip_to_id (resolve_client_ip headers) ≠ "" := by
      rw [hpid]; exact hpne
    have himgstage : image_stage env post.image_base64 (py_strip post.body) =
        Except.ok (py_strip post.body, false) := by
      rw [himg]; rfl
    rw [create_post_found env post headers db hlf hlk, hpid,
      post_with_id_admitted env post _ _ pid _ false db hbc hban hrq hcount himgstage,
      persist_stage_ok_bot_fail env post _ _ false _ pid db hpf hlg
        (by simp [hbody]) hbot]

theorem C9_noncritical_failures_swallowed_witness :
    (create_post envBanFail pdHello headersA db5).1 =
        Outcome.httpError 429
          "連投制限（10秒間に5回以上）を超過したため、このIDはBANされました。" ∧
      (create_post envBotFail ⟨"x", "test", none⟩ headersA dbMap).1 =
        Outcome.ok "投稿が完了しました" pidA :=
  ⟨C9_noncritical_failures_swallowed.1 envBanFail pdHello headersA db5 pidA rfl
      (by decide) (by decide) rfl (by decide) rfl rfl (by decide),
    C9_noncritical_failures_swallowed.2 envBotFail ⟨"x", "test", none⟩ headersA
      dbMap pidA rfl (by decide) (by decide) rfl (by decide) rfl (by decide) rfl
      rfl rfl (by decide) rfl⟩

/-- C1 as stated is false: with exactly 4 in-window activity entries for
the identifier — so the incoming request is its 5th qualifying post —
the request is accepted and no ban record is written; the code compares
the count of *prior* entries (not including the post in flight) against
the threshold. -/
theorem C1_fifth_post_counterexample :
    (create_post envBase pdHello headersA db4).1 =
        Outcome.ok "投稿が完了しました" pidA ∧
      (create_post envBase pdHello headersA db4).2.ban_list = [] := by
  decide

/-- C1 (amended): the post that finds 5 (not 4) prior qualifying entries
in the trailing window — i.e. the 6th qualifying post — triggers the
punitive path: the 429 rejection, exactly one ban record, exactly one
system notification post, and the offending post itself is not
persisted (the activity log is also untouched); the post that finds 4
prior entries — the 5th — triggers none of this and is accepted. -/
theorem C1_rate_limit_bans_sixth_post :
    (∀ (env : Env) (post : PostData) (headers : List (String × String))
      (db : DBState) (pid : String),
      env.ipLookupFails = false →
      lookup_public_id db.ip_to_id (resolve_client_ip headers) = pid →
      pid ≠ "" →
      env.banCheckFails = false →
      ban_lookup_hit pid db = false →
      env.rateQueryFails = false →
      env.rateHasCount = true →
      env.banInsertFails = false →
      env.banNoticeFails = false →
      rate_window_count env pid db = RATE_LIMIT_COUNT →
      create_post env post headers db =
        (Outcome.httpError 429
            "連投制限（10秒間に5回以上）を超過したため、このIDはBANされました。",
          { db with
            ban_list := db.ban_list ++ [⟨pid, ban_reason⟩]
            posts := db.posts ++ [ban_notice_post env pid] })) ∧
    (∀ (env : Env) (post : PostData) (headers : List (String × String))
      (db : DBState) (pid : String),
      env.ipLookupFails = false →
      lookup_public_id db.ip_to_id (resolve_client_ip headers) = pid →
      pid ≠ "" →
      env.banCheckFails = false →
      ban_lookup_hit pid db = false →
      env.rateQueryFails = false →
      rate_window_count env pid db = RATE_LIMIT_COUNT - 1 →
      post.image_base64 = none →
      env.postInsertFails = false →
      env.logInsertFails = false →
      (py_strip post.body == "test") = false →
      create_post env post headers db =
        (Outcome.ok "投稿が完了しました" pid,
          { db with
            posts := db.posts ++
              [user_post env post (py_strip post.body)
                (resolve_client_ip headers) pid]
            post_activity_log := db.post_activity_log ++ [⟨pid, env.now⟩] })) := by
  constructor
  · intro env post headers db pid hlf hpid hpne hbc hban hrq hhc hbi hbn hcount
    have hlk : lookup_public_id db.ip_to_id (resolve_client_ip headers) ≠ "" := by
      rw [hpid]; exact hpne
    rw [create_post_found env post headers db hlf hlk, hpid,
      post_with_id_rate_banned env post _ _ pid db hbc hban hrq hhc (by rw [hcount]),
      ban_user_success env pid db hbi hbn]
  · intro env post headers db pid hlf hpid hpne hbc hban hrq hcount himg hpf hlg hnb
    have hlk : lookup_public_id db.ip_to_id (resolve_client_ip headers) ≠ "" := by
      rw [hpid]; exact hpne
    have hcount2 : (if env.rateHasCount then rate_window_count env pid db else 0) <
        RATE_LIMIT_COUNT := by
      rw [hcount]
      by_cases h : env.rateHasCount <;> simp [h, RATE_LIMIT_COUNT]
    have himgstage : image_stage env post.image_base64 (py_strip post.body) =
        Except.ok (py_strip post.body, false) := by
      rw [himg]; rfl
    rw [create_post_found env post headers db hlf hlk, hpid,
      post_with_id_admitted env post _ _ pid _ false db hbc hban hrq hcount2 himgstage,
      persist_stage_ok_no_bot env post _ _ false _ pid db hpf hlg (by simp [hnb])]

theorem C1_rate_limit_bans_sixth_post_witness :
    create_post envBase pdHello headersA db5 =
        (Outcome.httpError 429
            "連投制限（10秒間に5回以上）を超過したため、このIDはBANされました。",
          { db5 with
            ban_list := db5.ban_list ++ [⟨pidA, ban_reason⟩]
            posts := db5.posts ++ [ban_notice_post envBase pidA] }) ∧
      create_post envBase pdHello headersA db4 =
        (Outcome.ok "投稿が完了しました" pidA,
          { db4 with
            posts := db4.posts ++
              [user_post envBase pdHello (py_strip pdHello.body)
                (resolve_client_ip headersA) pidA]
            post_activity_log := db4.post_activity_log ++ [⟨pidA, envBase.now⟩] }) :=
  ⟨C1_rate_limit_bans_sixth_post.1 envBase pdHello headersA db5 pidA rfl
      (by decide) (by decide) rfl (by decide) rfl rfl rfl rfl (by decide),
    C1_rate_limit_bans_sixth_post.2 envBase pdHello headersA db4 pidA rfl
      (by decide) (by decide) rfl (by decide) rfl (by decide) rfl rfl rfl
      (by decide)⟩

/-- C4: (1) an accepted non-image post whose cleaned body is exactly
`"test"` is followed by the system reply post, whose creation timestamp
is the trigger's plus 10 milliseconds and hence strictly later, so the
pair lists in creation order as user post then reply; (2) a post
carrying an image payload gets no reply even when its text body is
`"test"`; (3) a failure of the secondary insert never fails the primary
request. -/
theorem C4_test_autoreply :
    (∀ (env : Env) (post : PostData) (headers : List (String × String))
      (db : DBState) (pid : String),
      env.ipLookupFails = false →
      lookup_public_id db.ip_to_id (resolve_client_ip headers) = pid →
      pid ≠ "" →
      env.banCheckFails = false →
      ban_lookup_hit pid db = false →
      env.rateQueryFails = false →
      (if env.rateHasCount then rate_window_count env pid db else 0) <
        RATE_LIMIT_COUNT →
      post.image_base64 = none →
      env.postInsertFails = false →
      env.logInsertFails = false →
      env.botInsertFails = false →
      py_strip post.body = "test" →
      create_post env post headers db =
          (Outcome.ok "投稿が完了しました" pid,
            { db with
              posts := db.posts ++
                [user_post env post (py_strip post.body)
                  (resolve_client_ip headers) pid, bot_post env]
              post_activity_log := db.post_activity_log ++ [⟨pid, env.now⟩] }) ∧
        (bot_post env).created_at = env.now + 10 ∧
        (user_post env post (py_strip post.body)
          (resolve_client_ip headers) pid).created_at <
          (bot_post env).created_at) ∧
    (∀ (env : Env) (post : PostData) (headers : List (String × String))
      (db : DBState) (pid uri data_uri : String),
      env.ipLookupFails = false →
      lookup_public_id db.ip_to_id (resolve_client_ip headers) = pid →
      pid ≠ "" →
      env.banCheckFails = false →
      ban_lookup_hit pid db = false →
      env.rateQueryFails = false →
      (if env.rateHasCount then rate_window_count env pid db else 0) <
        RATE_LIMIT_COUNT →
      post.image_base64 = some uri →
      (uri != "") = true →
      compress_and_re_encode_base64 env.compressOracle uri =
        ImgOutcome.ok data_uri →
      data_uri.length ≤ 500000 →
      env.postInsertFails = false →
      env.logInsertFails = false →
      py_strip post.body = "test" →
      create_post env post headers db =
        (Outcome.ok "投稿が完了しました" pid,
          { db with
            posts := db.posts ++
              [user_post env post data_uri (resolve_client_ip headers) pid]
            post_activity_log := db.post_activity_log ++ [⟨pid, env.now⟩] })) ∧
    (∀ (env : Env) (post : PostData) (headers : List (String × String))
      (db : DBState) (pid : String),
      env.ipLookupFails = false →
      lookup_public_id db.ip_to_id (resolve_client_ip headers) = pid →
      pid ≠ "" →
      env.banCheckFails = false →
      ban_lookup_hit pid db = false →
      env.rateQueryFails = false →
      (if env.rateHasCount then rate_window_count env pid db else 0) <
        RATE_LIMIT_COUNT →
      post.image_base64 = none →
      env.postInsertFails = false →
      env.logInsertFails = false →
      env.botInsertFails = true →
      py_strip post.body = "test" →
      create_post env post headers db =
        (Outcome.ok "投稿が完了しました" pid,
          { db with
            posts := db.posts ++
              [user_post env post (py_strip post.body)
                (resolve_client_ip headers) pid]
            post_activity_log := db.post_activity_log ++ [⟨pid, env.now⟩] })) := by
  refine ⟨?_, ?_, ?_⟩
  · intro env post headers db pid hlf hpid hpne hbc hban hrq hcount himg hpf hlg
      hbot hbody
    have hlk : lookup_public_id db.ip_to_id (resolve_client_ip headers) ≠ "" := by
      rw [hpid]; exact hpne
    have himgstage : image_stage env post.image_base64 (py_strip post.body) =
        Except.ok (py_strip post.body, false) := by
      rw [himg]; rfl
    refine ⟨?_, rfl, ?_⟩
    · rw [create_post_found env post headers db hlf hlk, hpid,
        post_with_id_admitted env post _ _ pid _ false db hbc hban hrq hcount himgstage,
        persist_stage_ok_bot env post _ _ false _ pid db hpf hlg
          (by simp [hbody]) hbot]
    · show env.now < env.now + 10
      omega
  · intro env post headers db pid uri data_uri hlf hpid hpne hbc hban hrq hcount
      himg huri hcomp hlen hpf hlg hbody
    have hlk : lookup_public_id db.ip_to_id (resolve_client_ip headers) ≠ "" := by
      rw [hpid]; exact hpne
    have himgstage : image_stage env post.image_base64 (py_strip post.body) =
        Except.ok (data_uri, true) := by
      rw [himg]
      unfold image_stage
      simp only [Option.getD, huri, if_true, hcomp]
      rw [if_neg (by omega)]
    rw [create_post_found env post headers db hlf hlk, hpid,
      post_with_id_admitted env post _ _ pid data_uri true db hbc hban hrq hcount
        himgstage,
      persist_stage_ok_no_bot env post _ data_uri true _ pid db hpf hlg (by simp)]
  · intro env post headers db pid hlf hpid hpne hbc hban hrq hcount himg hpf hlg
      hbot hbody
    have hlk : lookup_public_id db.ip_to_id (resolve_client_ip headers) ≠ "" := by
      rw [hpid]; exact hpne
    have himgstage : image_stage env post.image_base64 (py_strip post.body) =
        Except.ok (py_strip post.body, false) := by
      rw [himg]; rfl
    rw [create_post_found env post headers db hlf hlk, hpid,
      post_with_id_admitted env post _ _ pid _ false db hbc hban hrq hcount himgstage,
      persist_stage_ok_bot_fail env post _ _ false _ pid db hpf hlg
        (by simp [hbody]) hbot]

theorem C4_test_autoreply_witness :
    (create_post envBase pdTest headersA dbMap =
        (Outcome.ok "投稿が完了しました" pidA,
          { dbMap with
            posts := dbMap.posts ++
              [user_post envBase pdTest (py_strip pdTest.body)
                (resolve_client_ip headersA) pidA, bot_post envBase]
            post_activity_log := dbMap.post_activity_log ++
              [⟨pidA, envBase.now⟩] }) ∧
      (bot_post envBase).created_at = envBase.now + 10 ∧
      (user_post envBase pdTest (py_strip pdTest.body)
        (resolve_client_ip headersA) pidA).created_at <
        (bot_post envBase).created_at) ∧
    create_post envOkImg pdImgTest headersA dbMap =
      (Outcome.ok "投稿が完了しました" pidA,
        { dbMap with
          posts := dbMap.posts ++
            [user_post envOkImg pdImgTest "data:image/jpeg;base64,AA"
              (resolve_client_ip headersA) pidA]
          post_activity_log := dbMap.post_activity_log ++
            [⟨pidA, envOkImg.now⟩] }) ∧
    create_post envBotFail pdTest headersA dbMap =
      (Outcome.ok "投稿が完了しました" pidA,
        { dbMap with
          posts := dbMap.posts ++
            [user_post envBotFail pdTest (py_strip pdTest.body)
              (resolve_client_ip headersA) pidA]
          post_activity_log := dbMap.post_activity_log ++
            [⟨pidA, envBotFail.now⟩] }) :=
  ⟨C4_test_autoreply.1 envBase pdTest headersA dbMap pidA rfl (by decide)
      (by decide) rfl (by decide) rfl (by decide) rfl rfl rfl rfl (by decide),
    C4_test_autoreply.2.1 envOkImg pdImgTest headersA dbMap pidA
      "data:image/png;base64,AAAA" "data:image/jpeg;base64,AA" rfl (by decide)
      (by decide) rfl (by decide) rfl (by decide) rfl (by decide) (by decide)
      (by decide) rfl rfl (by decide),
    C4_test_autoreply.2.2 envBotFail pdTest headersA dbMap pidA rfl (by decide)
      (by decide) rfl (by decide) rfl (by decide) rfl rfl rfl rfl (by decide)⟩

/-- C3 as stated is false: on a fresh store, a first request from `ipA`
whose image payload is malformed is rejected with 400, yet it already
creates the identity mapping; the subsequent accepted post from the same
ip then creates no mapping — so the mapping is not created by the first
*accepted* post. -/
theorem C3_mapping_created_by_rejected_request :
    (create_post envBase pdImgBad headersA dbEmpty).1 =
        Outcome.httpError 400 "画像処理エラー: 無効なBase64 Data URI形式です。" ∧
      (create_post envBase pdImgBad headersA dbEmpty).2.ip_to_id =
        [⟨ipA, "aaaaaaa"⟩] ∧
      (create_post envBase pdHello headersA
          (create_post envBase pdImgBad headersA dbEmpty).2).1 =
        Outcome.ok "投稿が完了しました" "aaaaaaa" ∧
      (create_post envBase pdHello headersA
          (create_post envBase pdImgBad headersA dbEmpty).2).2.ip_to_id =
        [⟨ipA, "aaaaaaa"⟩] := by
  decide

/-- C3 (amended): the first post request from an ip that reaches
identity resolution — whether or not the post is ultimately accepted —
creates exactly one mapping, whose identifier is a freshly generated
7-character alphanumeric string; every later request from that ip reuses
the mapping without creating another; a mapping-insert failure fails the
request with the 500 outcome, with no retry. -/
theorem C3_one_mapping_per_ip :
    (∀ (env : Env) (post : PostData) (headers : List (String × String))
      (db : DBState),
      env.ipLookupFails = false →
      env.ipInsertFails = false →
      lookup_public_id db.ip_to_id (resolve_client_ip headers) = "" →
      (create_post env post headers db).2.ip_to_id =
        db.ip_to_id ++
          [⟨resolve_client_ip headers, generate_public_id env.randPick⟩]) ∧
    (∀ (env : Env) (post : PostData) (headers : List (String × String))
      (db : DBState),
      env.ipLookupFails = false →
      lookup_public_id db.ip_to_id (resolve_client_ip headers) ≠ "" →
      (create_post env post headers db).2.ip_to_id = db.ip_to_id) ∧
    (∀ (env : Env) (post : PostData) (headers : List (String × String))
      (db : DBState),
      env.ipLookupFails = false →
      env.ipInsertFails = true →
      lookup_public_id db.ip_to_id (resolve_client_ip headers) = "" →
      create_post env post headers db =
        (Outcome.httpError 500 "ID割り当て中にエラーが発生しました。", db)) ∧
    (∀ pick : Nat → Nat,
      (generate_public_id pick).length = 7 ∧
        ∀ c ∈ (generate_public_id pick).data, c ∈ id_characters) := by
  refine ⟨?_, ?_, ?_, ?_⟩
  · intro env post headers db hlf hif hlk
    rw [create_post_fresh env post headers db hlf hif hlk, post_with_id_ip_to_id]
  · intro env post headers db hlf hlk
    rw [create_post_found env post headers db hlf hlk, post_with_id_ip_to_id]
  · intro env post headers db hlf hif hlk
    unfold create_post
    simp [hlf, hif, hlk]
  · intro pick
    constructor
    · simp [generate_public_id]
    · intro c hc
      unfold generate_public_id at hc
      simp only [List.mem_map, List.mem_range] at hc
      obtain ⟨i, _, heq⟩ := hc
      have hlt : pick i % 62 < id_characters.length := by
        have h62 : id_characters.length = 62 := by decide
        rw [h62]
        exact Nat.mod_lt _ (by decide)
      rw [← heq, List.getD_eq_getElem _ _ hlt]
      exact List.getElem_mem hlt

theorem C3_one_mapping_per_ip_witness :
    (create_post envBase pdHello headersA dbEmpty).2.ip_to_id =
        dbEmpty.ip_to_id ++
          [⟨resolve_client_ip headersA, generate_public_id envBase.randPick⟩] ∧
      (create_post envBase pdHello headersA dbMap).2.ip_to_id = dbMap.ip_to_id ∧
      create_post { envBase with ipInsertFails := true } pdHello headersA
          dbEmpty =
        (Outcome.httpError 500 "ID割り当て中にエラーが発生しました。", dbEmpty) ∧
      (generate_public_id envBase.randPick).length = 7 ∧
      ∀ c ∈ (generate_public_id envBase.randPick).data, c ∈ id_characters :=
  ⟨C3_one_mapping_per_ip.1 envBase pdHello headersA dbEmpty rfl rfl (by decide),
    C3_one_mapping_per_ip.2.1 envBase pdHello headersA dbMap rfl (by decide),
    C3_one_mapping_per_ip.2.2.1 { envBase with ipInsertFails := true } pdHello
      headersA dbEmpty rfl rfl (by decide),
    (C3_one_mapping_per_ip.2.2.2 envBase.randPick).1,
    (C3_one_mapping_per_ip.2.2.2 envBase.randPick).2⟩

/-- C5 as stated is false: the endpoint declares no `public_id`
parameter, so asking for the explicit identifier `"aaa"` still returns
every post — here `pB`, authored by `"bbb"`, comes back first — instead
of only `"aaa"`'s posts. -/
theorem C5_public_id_filter_ignored :
    get_posts dbTwo false false none (some "aaa") =
      Except.ok [post_view pB, post_view pA] := by
  rfl

/-- C5 (amended): the listing handler returns posts ordered by creation
time descending, optionally filtered to the identifier mapped from a
given origin ip; the explicit public-identifier query parameter of the
spec is ignored (the response does not depend on it); an ip that
resolves to no known identity yields the empty collection, not an
error. -/
theorem C5_listing_semantics :
    (∀ (db : DBState) (f1 f2 : Bool) (ip p q : Option String),
      get_posts db f1 f2 ip p = get_posts db f1 f2 ip q) ∧
    (∀ (db : DBState) (p : Option String),
      get_posts db false false none p =
        Except.ok ((posts_desc db.posts).map post_view)) ∧
    (∀ (db : DBState) (s : String) (p : Option String),
      s ≠ "" →
      (db.ip_to_id.filter (fun m => m.ip_address == s)).take 1 = [] →
      get_posts db false false (some s) p = Except.ok []) ∧
    (∀ (db : DBState) (s : String) (p : Option String) (r : IpMapping)
      (rest : List IpMapping),
      s ≠ "" →
      (db.ip_to_id.filter (fun m => m.ip_address == s)).take 1 = r :: rest →
      get_posts db false false (some s) p =
        Except.ok ((posts_desc
          (db.posts.filter (fun q2 => q2.public_id == r.public_id))).map
            post_view)) ∧
    (∀ l : List Post,
      List.Sorted (fun a b : Post => b.created_at ≤ a.created_at)
        (posts_desc l)) := by
  refine ⟨?_, ?_, ?_, ?_, ?_⟩
  · intro db f1 f2 ip p q
    rfl
  · intro db p
    rfl
  · intro db s p hs hr
    unfold get_posts
    simp [hs, hr]
  · intro db s p r rest hs hr
    unfold get_posts
    simp [hs, hr]
  · intro l
    haveI : IsTotal Post (fun a b => b.created_at ≤ a.created_at) :=
      ⟨fun a b => le_total b.created_at a.created_at⟩
    haveI : IsTrans Post (fun a b => b.created_at ≤ a.created_at) :=
      ⟨fun _ _ _ hab hbc => le_trans hbc hab⟩
    exact List.sorted_insertionSort _ l

theorem C5_listing_semantics_witness :
    get_posts dbTwo false false (some ipA) none = Except.ok [] ∧
      get_posts dbTwoMapped false false (some ipA) none =
        Except.ok [post_view pA] :=
  ⟨C5_listing_semantics.2.2.1 dbTwo ipA none (by decide) (by decide),
    C5_listing_semantics.2.2.2.1 dbTwoMapped ipA none ⟨ipA, "aaa"⟩ []
      (by decide) (by decide)⟩

set_option maxRecDepth 4000 in
/-- C6 as stated is false in two ways.  A supplied whitespace-only body
with no image is rejected, but with status 422 (FastAPI's rendering of
a pydantic `ValueError`), not 400 — likewise an oversized body.  And a
request that omits the `body` key entirely is not rejected at all:
pydantic applies the default `""` without running the validator, so the
handler accepts the post and writes a Post row with an empty body. -/
theorem C6_validation_counterexample :
    handle_post_request envBase ⟨"x", some "   ", none⟩ headersA dbMap =
        (Outcome.httpError 422 "本文または画像データのどちらか一方は必須です。",
          dbMap) ∧
      handle_post_request envBase ⟨"x", some longBody, none⟩ headersA dbMap =
        (Outcome.httpError 422 "本文は200文字以下で入力してください。", dbMap) ∧
      (handle_post_request envBase ⟨"x", none, none⟩ headersA dbMap).1 =
        Outcome.ok "投稿が完了しました" pidA ∧
      (handle_post_request envBase ⟨"x", none, none⟩ headersA dbMap).2.posts =
        [⟨pidA, "x", "", ipA, 1000000⟩] := by
  refine ⟨rfl, rfl, rfl, rfl⟩

/-- C6 (amended): a post request that supplies a body value which trims
to empty while no image payload is supplied, or whose trimmed body
exceeds 200 characters, is rejected by the pydantic validator —
surfaced by the framework as a 422 validation response rather than
400 — before the handler runs, so nothing is written to any table; a
request that omits the body field skips the validator (pydantic v2 does
not validate defaulted absent fields) and, carrying no image, is
accepted and writes a Post row with an empty body. -/
theorem C6_validation_rejections :
    (∀ (env : Env) (raw : RawPostData) (headers : List (String × String))
      (db : DBState) (b : String),
      raw.body = some b →
      py_strip b = "" →
      raw.image_base64 = none →
      handle_post_request env raw headers db =
        (Outcome.httpError 422 "本文または画像データのどちらか一方は必須です。",
          db)) ∧
    (∀ (env : Env) (raw : RawPostData) (headers : List (String × String))
      (db : DBState) (b : String),
      raw.body = some b →
      (py_strip b).length > 200 →
      handle_post_request env raw headers db =
        (Outcome.httpError 422 "本文は200文字以下で入力してください。", db)) ∧
    (∀ (env : Env) (raw : RawPostData) (headers : List (String × String))
      (db : DBState) (pid : String),
      raw.body = none →
      raw.image_base64 = none →
      env.ipLookupFails = false →
      lookup_public_id db.ip_to_id (resolve_client_ip headers) = pid →
      pid ≠ "" →
      env.banCheckFails = false →
      ban_lookup_hit pid db = false →
      env.rateQueryFails = false →
      (if env.rateHasCount then rate_window_count env pid db else 0) <
        RATE_LIMIT_COUNT →
      env.postInsertFails = false →
      env.logInsertFails = false →
      handle_post_request env raw headers db =
        (Outcome.ok "投稿が完了しました" pid,
          { db with
            posts := db.posts ++
              [user_post env ⟨raw.name, "", none⟩ ""
                (resolve_client_ip headers) pid]
            post_activity_log := db.post_activity_log ++
              [⟨pid, env.now⟩] })) := by
  refine ⟨?_, ?_, ?_⟩
  · intro env raw headers db b hb h1 _
    unfold handle_post_request validate_post_data check_body_and_image
    rw [hb]
    simp [h1]
  · intro env raw headers db b hb h2
    have hne : py_strip b ≠ "" := by
      intro h
      rw [h] at h2
      exact absurd h2 (by decide)
    unfold handle_post_request validate_post_data check_body_and_image
    rw [hb]
    simp [hne, h2]
  · intro env raw headers db pid hbody himg hlf hpid hpne hbc hban hrq hcount
      hpf hlg
    have hval : validate_post_data raw =
        Except.ok ⟨raw.name, "", raw.image_base64⟩ := by
      unfold validate_post_data
      rw [hbody]
    unfold handle_post_request
    rw [hval, himg]
    show create_post env ⟨raw.name, "", none⟩ headers db = _
    have hlk : lookup_public_id db.ip_to_id (resolve_client_ip headers) ≠ "" := by
      rw [hpid]; exact hpne
    rw [create_post_found env ⟨raw.name, "", none⟩ headers db hlf hlk, hpid,
      post_with_id_admitted env ⟨raw.name, "", none⟩ _ _ pid _ false db hbc hban
        hrq hcount rfl,
      persist_stage_ok_no_bot env ⟨raw.name, "", none⟩
        (py_strip (PostData.body ⟨raw.name, "", none⟩))
        (py_strip (PostData.body ⟨raw.name, "", none⟩)) false
        (resolve_client_ip headers) pid db hpf hlg rfl]
    rfl

set_option maxRecDepth 4000 in
theorem C6_validation_rejections_witness :
    handle_post_request envBase ⟨"x", some "", none⟩ headersA dbMap =
        (Outcome.httpError 422 "本文または画像データのどちらか一方は必須です。",
          dbMap) ∧
      handle_post_request envBase ⟨"y", some longBody, none⟩ headersA dbMap =
        (Outcome.httpError 422 "本文は200文字以下で入力してください。", dbMap) ∧
      handle_post_request envBase ⟨"z", none, none⟩ headersA dbMap =
        (Outcome.ok "投稿が完了しました" pidA,
          { dbMap with
            posts := dbMap.posts ++
              [user_post envBase ⟨"z", "", none⟩ ""
                (resolve_client_ip headersA) pidA]
            post_activity_log := dbMap.post_activity_log ++
              [⟨pidA, envBase.now⟩] }) :=
  ⟨C6_validation_rejections.1 envBase ⟨"x", some "", none⟩ headersA dbMap ""
      rfl (by decide) rfl,
    C6_validation_rejections.2.1 envBase ⟨"y", some longBody, none⟩ headersA
      dbMap longBody rfl (by decide),
    C6_validation_rejections.2.2 envBase ⟨"z", none, none⟩ headersA dbMap pidA
      rfl rfl rfl (by decide) (by decide) rfl (by decide) rfl (by decide) rfl
      rfl⟩

/-- `image_stage` on a truthy image payload is the codec dispatch. -/
theorem image_stage_some (env : Env) (uri clean : String)
    (huri : (uri != "") = true) :
    image_stage env (some uri) clean =
      match compress_and_re_encode_base64 env.compressOracle uri with
      | ImgOutcome.valueError msg =>
        Except.error (400, "画像処理エラー: " ++ msg)
      | ImgOutcome.otherError =>
        Except.error (500, "画像処理中に予期せぬエラーが発生しました。")
      | ImgOutcome.ok data_uri =>
        if data_uri.length > 500000 then
          Except.error (500, "画像処理中に予期せぬエラーが発生しました。")
        else
          Except.ok (data_uri, true) := by
  unfold image_stage
  simp [huri]

/-- C7: evaluating the handler at the failing input.  An image whose
encoded payload still exceeds 500000 characters after compression is
rejected with the generic 500 — the handler's own `HTTPException(400)`
is caught by the block's bare `except Exception` (there is no
`except HTTPException: raise` here) and replaced — not with the 400 the
claim states; a malformed data URI is rejected with 400 as claimed, and
in both cases no Post row is created. -/
theorem C7_oversized_image_gets_500 :
    create_post envBig pdImgBig headersA dbMap =
        (Outcome.httpError 500 "画像処理中に予期せぬエラーが発生しました。",
          dbMap) ∧
      create_post envBase pdImgBad headersA dbMap =
        (Outcome.httpError 400 "画像処理エラー: 無効なBase64 Data URI形式です。",
          dbMap) := by
  constructor
  · have hlen : ("data:image/jpeg;base64," ++ big_payload).length = 500024 := by
      rw [String.length_append]
      have h1 : big_payload.length = 500001 := by
        unfold big_payload
        rw [String.length_mk, List.length_replicate]
      rw [h1]
      decide
    have hcomp : compress_and_re_encode_base64 envBig.compressOracle
        "data:image/png;base64,AAAA" =
        ImgOutcome.ok ("data:image/jpeg;base64," ++ big_payload) := rfl
    have himgstage : image_stage envBig pdImgBig.image_base64
        (py_strip pdImgBig.body) =
        Except.error (500, "画像処理中に予期せぬエラーが発生しました。") := by
      show image_stage envBig (some "data:image/png;base64,AAAA")
          (py_strip pdImgBig.body) = _
      rw [image_stage_some _ _ _ (by decide)]
      simp only [hcomp]
      simp [hlen]
    rw [create_post_found envBig pdImgBig headersA dbMap rfl (by decide),
      post_with_id_image_error envBig pdImgBig _ _ _ 500
        "画像処理中に予期せぬエラーが発生しました。" dbMap rfl (by decide) rfl
        (by decide) himgstage]
  · decide

/-- C8 as stated is false on the fallback: with no forwarding headers at
all, the code resolves the identity source to the literal string
`"unknown"`, never to the direct connection address (here
`"198.51.100.7"`, which the spec-modelled resolver returns). -/
theorem C8_fallback_not_connection_address :
    resolve_client_ip [] = "unknown" ∧
      resolve_client_ip_spec [] "198.51.100.7" = "198.51.100.7" ∧
      ("unknown" : String) ≠ "198.51.100.7" := by
  decide

/-- C8 (amended): the identity source is the trimmed dedicated
original-client-ip header when that trims to anything other than
`"unknown"`, else the trimmed first entry of the forwarded-for list;
when neither header is present the result is the literal string
`"unknown"` — the direct connection address is never consulted. -/
theorem C8_header_resolution (headers : List (String × String)) :
    (py_strip (header_get headers "x-original-client-ip" "unknown") ≠
        "unknown" →
      resolve_client_ip headers =
        py_strip (header_get headers "x-original-client-ip" "unknown")) ∧
    (py_strip (header_get headers "x-original-client-ip" "unknown") =
        "unknown" →
      resolve_client_ip headers =
        py_strip (up_to_comma (header_get headers "x-forwarded-for"
          "unknown"))) ∧
    (headers.find? (fun h => h.1 == "x-original-client-ip") = none →
      headers.find? (fun h => h.1 == "x-forwarded-for") = none →
      resolve_client_ip headers = "unknown") := by
  refine ⟨?_, ?_, ?_⟩
  · intro h
    unfold resolve_client_ip
    simp [h]
  · intro h
    unfold resolve_client_ip
    simp [h]
  · intro h1 h2
    unfold resolve_client_ip header_get
    rw [h1, h2]
    decide

theorem C8_header_resolution_witness :
    resolve_client_ip headersA =
        py_strip (header_get headersA "x-original-client-ip" "unknown") ∧
      resolve_client_ip [("x-forwarded-for", "10.0.0.1, 10.0.0.2")] =
        py_strip (up_to_comma (header_get
          [("x-forwarded-for", "10.0.0.1, 10.0.0.2")] "x-forwarded-for"
          "unknown")) ∧
      resolve_client_ip [("accept", "text/html")] = "unknown" :=
  ⟨(C8_header_resolution headersA).1 (by decide),
    (C8_header_resolution [("x-forwarded-for", "10.0.0.1, 10.0.0.2")]).2.1
      (by decide),
    (C8_header_resolution [("accept", "text/html")]).2.2 (by decide)
      (by decide)⟩

end ServerBBS
